import Mathlib

/-! # Fake grpclb server

A shallow embedding of the three copies of the fake load-balancer server
(`src/main.go`, `src/cxx_creds_test/fake_grpclb.go`,
`src/manual_repro/fake_lb/fake_grpclb.go`) and the properties of its
`BalanceLoad` handler and of its start-up code.

The handler talks to a bidirectional stream through `Recv` and `Send`.  The
stream is modelled as explicit state: a script of the results the successive
`Recv` calls will return, a script of the results the successive `Send` calls
will return, and the trace of the calls made so far.  Go `int` is the 64-bit
`int` of the usual platforms; machine integers are mathematical integers with
explicit wrapping.
-/

namespace FakeGrpclb

/-! ## Machine integers and byte slices -/

/-- Width in bits of the Go type `int` (`strconv.IntSize`). -/
def intSize : Nat := 64

/-- The conversion `int32(x)`: keeps the low 32 bits, read as two's complement. -/
def int32 (x : Int) : Int := (x + 2 ^ 31) % 2 ^ 32 - 2 ^ 31

/-- The conversion `byte(v)`: keeps the low 8 bits. -/
def byte (v : Nat) : Nat := v % 256

/-- The allocation `make([]byte, n, n)`: a slice of `n` zero bytes. -/
def make (n : Nat) : List Nat := List.replicate n 0

/-- The function `binary.BigEndian.PutUint32(b, v)`: stores the four bytes of
`v` at `b[0..3]`, most significant first.  The Go function indexes `b[3]` first
and so requires `len(b) >= 4`; both call sites pass a 4-byte slice. -/
def binary.BigEndian.PutUint32 (b : List Nat) (v : Nat) : List Nat :=
  let b := b.set 0 (byte (v >>> 24))
  let b := b.set 1 (byte (v >>> 16))
  let b := b.set 2 (byte (v >>> 8))
  let b := b.set 3 (byte v)
  b

/-- The function `strconv.Itoa`: decimal rendering of an integer. -/
def strconv.Itoa (i : Int) : String := toString i

/-! ## Messages (package `grpc_lb_v1/messages`) -/

/-- A Go `error` value that is not nil. -/
structure Error where
  msg : String
  deriving DecidableEq, Repr

/-- The error `io.EOF`, which `Recv` returns once the client has closed its side. -/
def io.EOF : Error := ⟨"EOF"⟩

/-- The message `messages.LoadBalanceRequest`, kept as its wire bytes: the
handler never looks inside it. -/
structure LoadBalanceRequest where
  wire : List Nat
  deriving DecidableEq, Repr

/-- The message `messages.Server`, with the two fields the handler sets; the
other fields of the generated type keep their zero value. -/
structure Server where
  IpAddress : List Nat
  Port : Int
  deriving DecidableEq, Repr

/-- The message `messages.ServerList`. -/
structure ServerList where
  Servers : List Server
  deriving DecidableEq, Repr

/-- The oneof `LoadBalanceResponseType` of `messages.LoadBalanceResponse`. -/
inductive LoadBalanceResponseType where
  | LoadBalanceResponse_InitialResponse
  | LoadBalanceResponse_ServerList (ServerList : ServerList)
  deriving DecidableEq, Repr

/-- The message `messages.LoadBalanceResponse`. -/
structure LoadBalanceResponse where
  LoadBalanceResponseType : LoadBalanceResponseType
  deriving DecidableEq, Repr

/-! ## The stream and the log -/

/-- What one call of `stream.Recv()` returns: the message pointer and the error. -/
structure RecvResult where
  req : Option LoadBalanceRequest
  err : Option Error
  deriving DecidableEq, Repr

/-- One call made on the stream, with its argument. -/
inductive Op where
  | Recv
  | Send (res : LoadBalanceResponse)
  deriving DecidableEq, Repr

/-- The stream `lbpb.LoadBalancer_BalanceLoadServer` as seen by the handler.
`recvScript` holds what the coming `Recv` calls return, in order (the messages
the client has sent or queued, or the failures of the transport); `sendScript`
holds what the coming `Send` calls return; `trace` records the calls made. -/
structure Stream where
  recvScript : List RecvResult
  sendScript : List (Option Error)
  trace : List Op
  deriving DecidableEq, Repr

/-- The call `stream.Recv()`: takes the next scripted result; a client that
closed its side with nothing left to deliver gives `(nil, io.EOF)`. -/
def Stream.Recv (s : Stream) : RecvResult × Stream :=
  match s.recvScript with
  | [] => (⟨none, some io.EOF⟩, { s with trace := s.trace ++ [Op.Recv] })
  | r :: rest => (r, { s with recvScript := rest, trace := s.trace ++ [Op.Recv] })

/-- The call `stream.Send(res)`: takes the next scripted result, nil when the
script is exhausted. -/
def Stream.Send (s : Stream) (res : LoadBalanceResponse) : Option Error × Stream :=
  match s.sendScript with
  | [] => (none, { s with trace := s.trace ++ [Op.Send res] })
  | e :: rest => (e, { s with sendScript := rest, trace := s.trace ++ [Op.Send res] })

/-- What a handler invocation can touch: its stream and the process log. -/
structure World where
  stream : Stream
  log : List String
  deriving DecidableEq, Repr

/-- The call `grpclog.Info(msg)`. -/
def grpclog.Info (msg : String) (w : World) : World :=
  { w with log := w.log ++ ["INFO: " ++ msg] }

/-- The call `grpclog.Errorf(fmt + "%v", err)`, the error rendered by its message. -/
def grpclog.Errorf (fmt : String) (err : Error) (w : World) : World :=
  { w with log := w.log ++ ["ERROR: " ++ fmt ++ err.msg] }

/-- The call `grpclog.Infof(before + "%d" + after, i)`. -/
def grpclog.Infof (before : String) (i : Int) (after : String) (log : List String) :
    List String :=
  log ++ ["INFO: " ++ before ++ strconv.Itoa i ++ after]

/-! ## Command-line flags (package `flag`) -/

/-- The value held by a flag. -/
inductive Value where
  | int (i : Int)
  | bool (b : Bool)
  deriving DecidableEq, Repr

/-- A registered flag: its name, its current value (the default until the
command line sets it) and its usage string. -/
structure Flag where
  Name : String
  Value : Value
  Usage : String
  deriving DecidableEq, Repr

/-- The registered flags of a process. -/
abbrev FlagSet := List Flag

/-- One command-line argument `-name=value`, already split and read. -/
structure Arg where
  name : String
  value : Value
  deriving DecidableEq, Repr

/-- Whether a command-line value is accepted by a flag holding `cur`: the kinds
agree, and an integer fits the Go type `int`. -/
def flag.accepts (cur v : Value) : Bool :=
  match cur, v with
  | Value.int _, Value.int i =>
    decide (-(2 : ℤ) ^ (intSize - 1) ≤ i) && decide (i < (2 : ℤ) ^ (intSize - 1))
  | Value.bool _, Value.bool _ => true
  | _, _ => false

/-- Setting one flag from the command line: fails when no flag has that name or
the value is not accepted. -/
def flag.Set (fs : FlagSet) (a : Arg) : Option FlagSet :=
  match fs with
  | [] => none
  | f :: rest =>
    if f.Name = a.name then
      if flag.accepts f.Value a.value = true then some ({ f with Value := a.value } :: rest) else none
    else
      (flag.Set rest a).map (fun rest => f :: rest)

/-- The call `flag.Parse()`: applies the arguments in order; `none` stands for
the process exiting on a bad command line. -/
def flag.Parse (fs : FlagSet) (args : List Arg) : Option FlagSet :=
  match args with
  | [] => some fs
  | a :: rest =>
    match flag.Set fs a with
    | none => none
    | some fs => flag.Parse fs rest

/-- Dereferencing the pointer returned by `flag.Int` for `name`. -/
def FlagSet.getInt (fs : FlagSet) (name : String) : Int :=
  match fs with
  | [] => 0
  | f :: rest =>
    if f.Name = name then
      match f.Value with
      | Value.int i => i
      | Value.bool _ => 0
    else FlagSet.getInt rest name

/-- Dereferencing the pointer returned by `flag.Bool` for `name`. -/
def FlagSet.getBool (fs : FlagSet) (name : String) : Bool :=
  match fs with
  | [] => false
  | f :: rest =>
    if f.Name = name then
      match f.Value with
      | Value.bool b => b
      | Value.int _ => false
    else FlagSet.getBool rest name

/-- The Go type `bool`. -/
abbrev Boolean := Bool

/-- The registration `flag.Int(name, value, usage)`. -/
def flag.Int (name : String) (value : ℤ) (usage : String) : Flag :=
  ⟨name, Value.int value, usage⟩

/-- The registration `flag.Bool(name, value, usage)`. -/
def flag.Bool (name : String) (value : Boolean) (usage : String) : Flag :=
  ⟨name, Value.bool value, usage⟩

/-! ## Server construction (packages `grpc`, `alts`, `net`) -/

/-- Transport credentials. -/
inductive TransportCredentials where
  | alts
  deriving DecidableEq, Repr

/-- The constructor `alts.NewServerCreds()`. -/
def alts.NewServerCreds : TransportCredentials := TransportCredentials.alts

/-- A `grpc.ServerOption`. -/
inductive ServerOption where
  | Creds (c : TransportCredentials)
  deriving DecidableEq, Repr

/-- The option `grpc.Creds(c)`. -/
def grpc.Creds (c : TransportCredentials) : ServerOption := ServerOption.Creds c

/-- A `grpc.Server`, described by the options it was built with. -/
structure grpc.Server where
  opts : List ServerOption
  deriving DecidableEq, Repr

/-- The constructor `grpc.NewServer(opts...)`. -/
def grpc.NewServer (opts : List ServerOption) : grpc.Server := ⟨opts⟩

/-- The listener asked for by `net.Listen(network, address)`. -/
structure Listener where
  network : String
  address : String
  deriving DecidableEq, Repr

/-- The call `net.Listen(network, address)`. -/
def net.Listen (network address : String) : Listener := ⟨network, address⟩

/-- What `main` has set up when it reaches `server.Serve(lis)`: the flags as
parsed, the server, the listener, and what was printed and logged on the way. -/
structure Process where
  flags : FlagSet
  server : grpc.Server
  lis : Listener
  stdout : List String
  log : List String
  deriving DecidableEq, Repr

/-! ## `src/main.go` -/

namespace main_go

/-- The flags registered by the `var` block. -/
def flags : FlagSet :=
  [flag.Int "port" 10000 "The server port",
   flag.Int "backend_port" 20000 "The backend server port"]

/-- The value `*port`. -/
def port (fs : FlagSet) : Int := fs.getInt "port"

/-- The value `*backend_port`. -/
def backend_port (fs : FlagSet) : Int := fs.getInt "backend_port"

/-- The handler `(*loadBalancerServer).BalanceLoad(stream)`; `fs` holds the
flags it reads, the result is the returned error (`none` for nil). -/
def BalanceLoad (fs : FlagSet) (w : World) : Option Error × World :=
  let w := grpclog.Info "Begin handling new BalancerLoad request." w
  let (r, stream) := w.stream.Recv
  let w := { w with stream := stream }
  match r.err with
  | some err =>
    let w := grpclog.Errorf "Error receiving LoadBalanceRequest: " err w
    (some err, w)
  | none =>
    let w := grpclog.Info "LoadBalancerRequest received." w
    let localhost_ipv4 := make 4
    let localhost_ipv4 := binary.BigEndian.PutUint32 localhost_ipv4 0x7f000001
    let res : LoadBalanceResponse :=
      { LoadBalanceResponseType :=
          LoadBalanceResponseType.LoadBalanceResponse_ServerList
            { Servers :=
                [{ IpAddress := localhost_ipv4,
                   Port := int32 (backend_port fs) }] } }
    let (_, stream) := w.stream.Send res
    let w := { w with stream := stream }
    let w := grpclog.Info "Sent LoadBalanceResponse" w
    (none, w)

/-- The function `main`, run on the command line `args` up to the point where
it blocks in `server.Serve(lis)`; `none` when `flag.Parse` exits. -/
def main (args : List Arg) : Option Process :=
  match flag.Parse flags args with
  | none => none
  | some fs =>
    let opts : List ServerOption := []
    let server := grpc.NewServer opts
    let stdout := ["begin listing on " ++ strconv.Itoa (port fs) ++ "\n"]
    let lis := net.Listen "tcp" (":" ++ strconv.Itoa (port fs))
    some { flags := fs, server := server, lis := lis, stdout := stdout, log := [] }

end main_go

/-! ## `src/cxx_creds_test/fake_grpclb.go` -/

namespace cxx_creds_test

/-- The flags registered by the `var` block. -/
def flags : FlagSet :=
  [flag.Int "port" 10000 "The server port",
   flag.Int "backend_port" 20000 "The backend server port",
   flag.Bool "insecure" false "insecure"]

/-- The value `*port`. -/
def port (fs : FlagSet) : Int := fs.getInt "port"

/-- The value `*backend_port`. -/
def backend_port (fs : FlagSet) : Int := fs.getInt "backend_port"

/-- The value `*insecure`. -/
def insecure (fs : FlagSet) : Bool := fs.getBool "insecure"

/-- The handler `(*loadBalancerServer).BalanceLoad(stream)`; `fs` holds the
flags it reads, the result is the returned error (`none` for nil). -/
def BalanceLoad (fs : FlagSet) (w : World) : Option Error × World :=
  let w := grpclog.Info "Begin handling new BalancerLoad request." w
  let (r, stream) := w.stream.Recv
  let w := { w with stream := stream }
  match r.err with
  | some err =>
    let w := grpclog.Errorf "Error receiving LoadBalanceRequest: " err w
    (some err, w)
  | none =>
    let w := grpclog.Info "LoadBalancerRequest received." w
    let localhost_ipv4 := make 4
    let localhost_ipv4 := binary.BigEndian.PutUint32 localhost_ipv4 0x7f000001
    let res : LoadBalanceResponse :=
      { LoadBalanceResponseType :=
          LoadBalanceResponseType.LoadBalanceResponse_ServerList
            { Servers :=
                [{ IpAddress := localhost_ipv4,
                   Port := int32 (backend_port fs) }] } }
    let (_, stream) := w.stream.Send res
    let w := { w with stream := stream }
    let w := grpclog.Info "Sent LoadBalanceResponse" w
    (none, w)

/-- The function `main`, run on the command line `args` up to the point where
it blocks in `server.Serve(lis)`; `none` when `flag.Parse` exits. -/
def main (args : List Arg) : Option Process :=
  match flag.Parse flags args with
  | none => none
  | some fs =>
    let opts : List ServerOption := []
    let opts :=
      if !(insecure fs) then
        let altsCreds := grpc.Creds alts.NewServerCreds
        opts ++ [altsCreds]
      else opts
    let server := grpc.NewServer opts
    let stdout :=
      ["Begin listing on " ++ strconv.Itoa (port fs) ++ " with ALTS credentials.\n"]
    let lis := net.Listen "tcp" (":" ++ strconv.Itoa (port fs))
    some { flags := fs, server := server, lis := lis, stdout := stdout, log := [] }

end cxx_creds_test

/-! ## `src/manual_repro/fake_lb/fake_grpclb.go` -/

namespace manual_repro

/-- The constant `localhostIpv4`, 127.0.0.1. -/
def localhostIpv4 : Nat := 0x7f000001

/-- The flags registered by the `var` block. -/
def flags : FlagSet :=
  [flag.Int "port" 10000 "The server port",
   flag.Int "backend_port" 20000 "The backend server port",
   flag.Bool "debug_mode" false "Run the server with insecure credentials"]

/-- The value `*port`. -/
def port (fs : FlagSet) : Int := fs.getInt "port"

/-- The value `*backendPort`. -/
def backendPort (fs : FlagSet) : Int := fs.getInt "backend_port"

/-- The value `*debugMode`. -/
def debugMode (fs : FlagSet) : Bool := fs.getBool "debug_mode"

/-- The handler `(*loadBalancerServer).BalanceLoad(stream)`; `fs` holds the
flags it reads, the result is the returned error (`none` for nil). -/
def BalanceLoad (fs : FlagSet) (w : World) : Option Error × World :=
  let w := grpclog.Info "Begin handling new BalancerLoad request." w
  let (r, stream) := w.stream.Recv
  let w := { w with stream := stream }
  match r.err with
  | some err =>
    let w := grpclog.Errorf "Error receiving LoadBalanceRequest: " err w
    (some err, w)
  | none =>
    let w := grpclog.Info "LoadBalancerRequest received." w
    let localhostIpv4Bytes := make 4
    let localhostIpv4Bytes := binary.BigEndian.PutUint32 localhostIpv4Bytes localhostIpv4
    let res : LoadBalanceResponse :=
      { LoadBalanceResponseType :=
          LoadBalanceResponseType.LoadBalanceResponse_ServerList
            { Servers :=
                [{ IpAddress := localhostIpv4Bytes,
                   Port := int32 (backendPort fs) }] } }
    let (_, stream) := w.stream.Send res
    let w := { w with stream := stream }
    let w := grpclog.Info "Sent LoadBalanceResponse" w
    (none, w)

/-- The function `main`, run on the command line `args` up to the point where
it blocks in `server.Serve(lis)`; `none` when `flag.Parse` exits. -/
def main (args : List Arg) : Option Process :=
  match flag.Parse flags args with
  | none => none
  | some fs =>
    let opts : List ServerOption := []
    let opts :=
      if !(debugMode fs) then
        let altsCreds := grpc.Creds alts.NewServerCreds
        opts ++ [altsCreds]
      else opts
    let server := grpc.NewServer opts
    let log := grpclog.Infof "Begin listening on " (port fs) "." []
    let lis := net.Listen "tcp" (":" ++ strconv.Itoa (port fs))
    some { flags := fs, server := server, lis := lis, stdout := [], log := log }

end manual_repro

/-! ## The three copies side by side -/

/-- The three source files that each hold a copy of the server. -/
inductive Copy where
  | main_go
  | cxx_creds_test
  | manual_repro
  deriving DecidableEq, Repr

/-- The handler of a copy. -/
def Copy.BalanceLoad : Copy → FlagSet → World → Option Error × World
  | Copy.main_go => main_go.BalanceLoad
  | Copy.cxx_creds_test => cxx_creds_test.BalanceLoad
  | Copy.manual_repro => manual_repro.BalanceLoad

/-- The backend port a copy is configured with. -/
def Copy.backend_port : Copy → FlagSet → Int
  | Copy.main_go => main_go.backend_port
  | Copy.cxx_creds_test => cxx_creds_test.backend_port
  | Copy.manual_repro => manual_repro.backendPort

/-- The listen port a copy is configured with. -/
def Copy.port : Copy → FlagSet → Int
  | Copy.main_go => main_go.port
  | Copy.cxx_creds_test => cxx_creds_test.port
  | Copy.manual_repro => manual_repro.port

/-- The flags a copy registers. -/
def Copy.flags : Copy → FlagSet
  | Copy.main_go => main_go.flags
  | Copy.cxx_creds_test => cxx_creds_test.flags
  | Copy.manual_repro => manual_repro.flags

/-- The start-up code of a copy. -/
def Copy.main : Copy → List Arg → Option Process
  | Copy.main_go => main_go.main
  | Copy.cxx_creds_test => cxx_creds_test.main
  | Copy.manual_repro => manual_repro.main

/-- The insecure/debug flag of a copy, for the copies that define one
(`-insecure`, `-debug_mode`). -/
def Copy.insecureFlag : Copy → Option (FlagSet → Bool)
  | Copy.main_go => none
  | Copy.cxx_creds_test => some cxx_creds_test.insecure
  | Copy.manual_repro => some manual_repro.debugMode

/-- The response every copy builds for backend port `p`. -/
def serverListResponse (p : Int) : LoadBalanceResponse :=
  ⟨LoadBalanceResponseType.LoadBalanceResponse_ServerList ⟨[⟨[127, 0, 0, 1], p⟩]⟩⟩

/-! ## Auxiliary facts -/

theorem putUint32_localhost :
    binary.BigEndian.PutUint32 (make 4) 0x7f000001 = [127, 0, 0, 1] := by decide

theorem Stream.Recv_trace (s : Stream) : s.Recv.2.trace = s.trace ++ [Op.Recv] := by
  unfold Stream.Recv
  cases s.recvScript <;> rfl

theorem Stream.Recv_recvScript (s : Stream) : s.Recv.2.recvScript = s.recvScript.tail := by
  unfold Stream.Recv
  cases s.recvScript <;> rfl

theorem Stream.Recv_sendScript (s : Stream) : s.Recv.2.sendScript = s.sendScript := by
  unfold Stream.Recv
  cases s.recvScript <;> rfl

theorem Stream.Send_trace (s : Stream) (res : LoadBalanceResponse) :
    (s.Send res).2.trace = s.trace ++ [Op.Send res] := by
  unfold Stream.Send
  cases s.sendScript <;> rfl

theorem Stream.Send_recvScript (s : Stream) (res : LoadBalanceResponse) :
    (s.Send res).2.recvScript = s.recvScript := by
  unfold Stream.Send
  cases s.sendScript <;> rfl

theorem Stream.Send_sendScript (s : Stream) (res : LoadBalanceResponse) :
    (s.Send res).2.sendScript = s.sendScript.tail := by
  unfold Stream.Send
  cases s.sendScript <;> rfl

/-- The handler of every copy, written out by cases on the result of `Recv`. -/
theorem Copy.BalanceLoad_eq (c : Copy) (fs : FlagSet) (w : World) :
    c.BalanceLoad fs w =
      match w.stream.Recv.1.err with
      | some err =>
        (some err,
          ⟨w.stream.Recv.2,
            w.log ++ ["INFO: Begin handling new BalancerLoad request."] ++
              ["ERROR: Error receiving LoadBalanceRequest: " ++ err.msg]⟩)
      | none =>
        (none,
          ⟨(w.stream.Recv.2.Send (serverListResponse (int32 (c.backend_port fs)))).2,
            w.log ++ ["INFO: Begin handling new BalancerLoad request."] ++
              ["INFO: LoadBalancerRequest received."] ++ ["INFO: Sent LoadBalanceResponse"]⟩) := by
  cases c <;> rfl

theorem Copy.BalanceLoad_recv_ok (c : Copy) (fs : FlagSet) (w : World)
    (h : w.stream.Recv.1.err = none) :
    (c.BalanceLoad fs w).1 = none ∧
      (c.BalanceLoad fs w).2.stream =
        (w.stream.Recv.2.Send (serverListResponse (int32 (c.backend_port fs)))).2 := by
  rw [Copy.BalanceLoad_eq, h]
  exact ⟨rfl, rfl⟩

theorem Copy.BalanceLoad_recv_err (c : Copy) (fs : FlagSet) (w : World) (e : Error)
    (h : w.stream.Recv.1.err = some e) :
    (c.BalanceLoad fs w).1 = some e ∧ (c.BalanceLoad fs w).2.stream = w.stream.Recv.2 := by
  rw [Copy.BalanceLoad_eq, h]
  exact ⟨rfl, rfl⟩

theorem Copy.BalanceLoad_trace_ok (c : Copy) (fs : FlagSet) (w : World)
    (h : w.stream.Recv.1.err = none) :
    (c.BalanceLoad fs w).2.stream.trace =
      w.stream.trace ++
        [Op.Recv, Op.Send (serverListResponse (int32 (c.backend_port fs)))] := by
  rw [(Copy.BalanceLoad_recv_ok c fs w h).2, Stream.Send_trace, Stream.Recv_trace]
  simp

theorem Copy.BalanceLoad_trace_err (c : Copy) (fs : FlagSet) (w : World) (e : Error)
    (h : w.stream.Recv.1.err = some e) :
    (c.BalanceLoad fs w).2.stream.trace = w.stream.trace ++ [Op.Recv] := by
  rw [(Copy.BalanceLoad_recv_err c fs w e h).2, Stream.Recv_trace]

theorem int32_of_fits (p : Int) (h : -(2 : ℤ) ^ 31 ≤ p ∧ p < (2 : ℤ) ^ 31) : int32 p = p := by
  unfold int32
  rw [Int.emod_eq_of_lt (by omega) (by omega)]
  omega

/-! ## The handler -/

/-- Claim C1: for every copy, every configured backend port and every first
request, when `Recv` succeeds the handler passes to `Send` a response of the
server-list variant with exactly one entry, whose IP address is the four bytes
127, 0, 0, 1, the big-endian encoding of `0x7f000001`. -/
theorem balanceLoad_sends_single_loopback_server (c : Copy) (fs : FlagSet) (w : World)
    (h : w.stream.Recv.1.err = none) :
    ∃ srv : Server,
      (c.BalanceLoad fs w).2.stream.trace =
          w.stream.trace ++
            [Op.Recv,
              Op.Send ⟨LoadBalanceResponseType.LoadBalanceResponse_ServerList ⟨[srv]⟩⟩] ∧
        srv.IpAddress = [127, 0, 0, 1] ∧
        srv.IpAddress =
          [0x7f000001 / 2 ^ 24 % 256, 0x7f000001 / 2 ^ 16 % 256, 0x7f000001 / 2 ^ 8 % 256,
            0x7f000001 % 256] :=
  ⟨⟨[127, 0, 0, 1], int32 (c.backend_port fs)⟩, Copy.BalanceLoad_trace_ok c fs w h, rfl,
    by norm_num⟩

theorem balanceLoad_sends_single_loopback_server_witness :
    (Stream.Recv ⟨[⟨some ⟨[10, 3, 108, 98, 49]⟩, none⟩], [], []⟩).1.err = none ∧
      ∃ srv : Server,
        (Copy.BalanceLoad Copy.manual_repro manual_repro.flags
              ⟨⟨[⟨some ⟨[10, 3, 108, 98, 49]⟩, none⟩], [], []⟩, []⟩).2.stream.trace =
            [] ++
              [Op.Recv,
                Op.Send ⟨LoadBalanceResponseType.LoadBalanceResponse_ServerList ⟨[srv]⟩⟩] ∧
          srv.IpAddress = [127, 0, 0, 1] ∧
          srv.IpAddress =
            [0x7f000001 / 2 ^ 24 % 256, 0x7f000001 / 2 ^ 16 % 256, 0x7f000001 / 2 ^ 8 % 256,
              0x7f000001 % 256] :=
  ⟨rfl,
    balanceLoad_sends_single_loopback_server Copy.manual_repro manual_repro.flags
      ⟨⟨[⟨some ⟨[10, 3, 108, 98, 49]⟩, none⟩], [], []⟩, []⟩ rfl⟩

/-- Claim C2, as stated, fails: started with `-backend_port=2147483648`, a value
the 64-bit Go `int` flag accepts, the handler of `src/main.go` answers a
successful `Recv` with port `-2147483648`, not the configured port. -/
theorem balanceLoad_port_differs_from_flag :
    ∃ fs : FlagSet,
      flag.Parse main_go.flags [⟨"backend_port", Value.int 2147483648⟩] = some fs ∧
        main_go.backend_port fs = 2147483648 ∧
        (main_go.BalanceLoad fs ⟨⟨[⟨some ⟨[]⟩, none⟩], [], []⟩, []⟩).2.stream.trace =
          [Op.Recv, Op.Send (serverListResponse (-2147483648))] ∧
        serverListResponse (-2147483648) ≠ serverListResponse (main_go.backend_port fs) :=
  ⟨[flag.Int "port" 10000 "The server port",
      flag.Int "backend_port" 2147483648 "The backend server port"],
    by decide, by decide, by decide, by decide⟩

/-- Claim C2, amended: for every copy and every value of the backend port flag,
when `Recv` succeeds the single server entry sent has IP 127.0.0.1 and port
`int32(backend_port)`, the low 32 bits of the flag; when the flag fits a signed
32-bit integer the port equals the configured backend port, and with
`backend_port=20000` the server list is one entry with port 20000. -/
theorem balanceLoad_port_is_int32_of_flag (c : Copy) (fs : FlagSet) (w : World)
    (h : w.stream.Recv.1.err = none) :
    (c.BalanceLoad fs w).2.stream.trace =
        w.stream.trace ++
          [Op.Recv, Op.Send (serverListResponse (int32 (c.backend_port fs)))] ∧
      (-(2 : ℤ) ^ 31 ≤ c.backend_port fs ∧ c.backend_port fs < (2 : ℤ) ^ 31 →
        (c.BalanceLoad fs w).2.stream.trace =
          w.stream.trace ++ [Op.Recv, Op.Send (serverListResponse (c.backend_port fs))]) ∧
      (c.backend_port fs = 20000 →
        (c.BalanceLoad fs w).2.stream.trace =
          w.stream.trace ++
            [Op.Recv,
              Op.Send
                ⟨LoadBalanceResponseType.LoadBalanceResponse_ServerList
                  ⟨[⟨[127, 0, 0, 1], 20000⟩]⟩⟩]) := by
  have ht := Copy.BalanceLoad_trace_ok c fs w h
  refine ⟨ht, ?_, ?_⟩
  · intro hfit
    rw [ht, int32_of_fits _ hfit]
  · intro h20
    rw [ht, h20]
    rfl

theorem balanceLoad_port_is_int32_of_flag_witness :
    (Stream.Recv ⟨[⟨some ⟨[]⟩, none⟩], [], []⟩).1.err = none ∧
      (-(2 : ℤ) ^ 31 ≤ Copy.backend_port Copy.cxx_creds_test cxx_creds_test.flags ∧
        Copy.backend_port Copy.cxx_creds_test cxx_creds_test.flags < (2 : ℤ) ^ 31) ∧
      Copy.backend_port Copy.cxx_creds_test cxx_creds_test.flags = 20000 ∧
      (Copy.BalanceLoad Copy.cxx_creds_test cxx_creds_test.flags
            ⟨⟨[⟨some ⟨[]⟩, none⟩], [], []⟩, []⟩).2.stream.trace =
        [] ++
          [Op.Recv,
            Op.Send
              ⟨LoadBalanceResponseType.LoadBalanceResponse_ServerList
                ⟨[⟨[127, 0, 0, 1], 20000⟩]⟩⟩] :=
  ⟨rfl, by decide, by decide,
    (balanceLoad_port_is_int32_of_flag Copy.cxx_creds_test cxx_creds_test.flags
      ⟨⟨[⟨some ⟨[]⟩, none⟩], [], []⟩, []⟩ rfl).2.2 (by decide)⟩

/-- Claim C3: for every copy and every stream whose first `Recv` succeeds, the
handler calls `Send` exactly once on that stream, after the `Recv`, and returns
nil. -/
theorem balanceLoad_sends_once_then_returns_nil (c : Copy) (fs : FlagSet) (w : World)
    (h : w.stream.Recv.1.err = none) :
    (c.BalanceLoad fs w).1 = none ∧
      ∃ res : LoadBalanceResponse,
        (c.BalanceLoad fs w).2.stream.trace = w.stream.trace ++ [Op.Recv, Op.Send res] :=
  ⟨(Copy.BalanceLoad_recv_ok c fs w h).1, _, Copy.BalanceLoad_trace_ok c fs w h⟩

theorem balanceLoad_sends_once_then_returns_nil_witness :
    (Stream.Recv ⟨[⟨some ⟨[1, 2]⟩, none⟩, ⟨some ⟨[3]⟩, none⟩], [], []⟩).1.err = none ∧
      (Copy.BalanceLoad Copy.main_go main_go.flags
            ⟨⟨[⟨some ⟨[1, 2]⟩, none⟩, ⟨some ⟨[3]⟩, none⟩], [], []⟩, []⟩).1 = none ∧
      ∃ res : LoadBalanceResponse,
        (Copy.BalanceLoad Copy.main_go main_go.flags
              ⟨⟨[⟨some ⟨[1, 2]⟩, none⟩, ⟨some ⟨[3]⟩, none⟩], [], []⟩, []⟩).2.stream.trace =
          [] ++ [Op.Recv, Op.Send res] :=
  ⟨rfl,
    balanceLoad_sends_once_then_returns_nil Copy.main_go main_go.flags
      ⟨⟨[⟨some ⟨[1, 2]⟩, none⟩, ⟨some ⟨[3]⟩, none⟩], [], []⟩, []⟩ rfl⟩

/-- Claim C4: for every copy and every stream whose first `Recv` fails with an
error `e` (a client that closed before sending anything gives `io.EOF`), the
handler makes no `Send` call, leaves the send side untouched and returns exactly
`e`. -/
theorem balanceLoad_recv_error_is_returned (c : Copy) (fs : FlagSet) (w : World) (e : Error)
    (h : w.stream.Recv.1.err = some e) :
    (c.BalanceLoad fs w).1 = some e ∧
      (c.BalanceLoad fs w).2.stream.trace = w.stream.trace ++ [Op.Recv] ∧
      (c.BalanceLoad fs w).2.stream.sendScript = w.stream.sendScript := by
  refine ⟨(Copy.BalanceLoad_recv_err c fs w e h).1, Copy.BalanceLoad_trace_err c fs w e h, ?_⟩
  rw [(Copy.BalanceLoad_recv_err c fs w e h).2, Stream.Recv_sendScript]

theorem balanceLoad_recv_error_is_returned_witness :
    (Stream.Recv ⟨[], [], []⟩).1.err = some io.EOF ∧
      (Copy.BalanceLoad Copy.manual_repro manual_repro.flags ⟨⟨[], [], []⟩, []⟩).1 =
        some io.EOF ∧
      (Copy.BalanceLoad Copy.manual_repro manual_repro.flags
            ⟨⟨[], [], []⟩, []⟩).2.stream.trace = [] ++ [Op.Recv] ∧
      (Copy.BalanceLoad Copy.manual_repro manual_repro.flags
            ⟨⟨[], [], []⟩, []⟩).2.stream.sendScript = [] :=
  ⟨rfl,
    balanceLoad_recv_error_is_returned Copy.manual_repro manual_repro.flags ⟨⟨[], [], []⟩, []⟩
      io.EOF rfl⟩

/-- Claim C5: for every copy and every stream, whatever the client has queued,
one invocation of the handler calls `Recv` exactly once: the calls it adds to
the trace are `[Recv]` when the receive fails and `[Recv, Send res]` when it
succeeds, and everything queued after the first item is left unconsumed. -/
theorem balanceLoad_recv_exactly_once (c : Copy) (fs : FlagSet) (w : World) :
    (c.BalanceLoad fs w).2.stream.recvScript = w.stream.recvScript.tail ∧
      List.count Op.Recv (c.BalanceLoad fs w).2.stream.trace =
        List.count Op.Recv w.stream.trace + 1 ∧
      ((w.stream.Recv.1.err ≠ none ∧
          (c.BalanceLoad fs w).2.stream.trace = w.stream.trace ++ [Op.Recv]) ∨
        (w.stream.Recv.1.err = none ∧
          ∃ res : LoadBalanceResponse,
            (c.BalanceLoad fs w).2.stream.trace =
              w.stream.trace ++ [Op.Recv, Op.Send res])) := by
  cases h : w.stream.Recv.1.err with
  | none =>
    have ht := Copy.BalanceLoad_trace_ok c fs w h
    refine ⟨?_, ?_, Or.inr ⟨rfl, _, ht⟩⟩
    · rw [(Copy.BalanceLoad_recv_ok c fs w h).2, Stream.Send_recvScript,
        Stream.Recv_recvScript]
    · rw [ht]
      simp [List.count_cons]
  | some e =>
    have ht := Copy.BalanceLoad_trace_err c fs w e h
    refine ⟨?_, ?_, Or.inl ⟨by simp, ht⟩⟩
    · rw [(Copy.BalanceLoad_recv_err c fs w e h).2, Stream.Recv_recvScript]
    · rw [ht]
      simp

/-- Claim C6: for every copy and every stream on which `Recv` succeeds and the
`Send` fails with an error `e`, the handler still returns nil, having called
`Send` once only and consumed one send result only. -/
theorem balanceLoad_send_error_discarded (c : Copy) (fs : FlagSet) (w : World) (e : Error)
    (rest : List (Option Error)) (h : w.stream.Recv.1.err = none)
    (hs : w.stream.sendScript = some e :: rest) :
    (∀ res : LoadBalanceResponse, (w.stream.Recv.2.Send res).1 = some e) ∧
      (c.BalanceLoad fs w).1 = none ∧
      (c.BalanceLoad fs w).1 ≠ some e ∧
      (c.BalanceLoad fs w).2.stream.sendScript = rest ∧
      ∃ res : LoadBalanceResponse,
        (c.BalanceLoad fs w).2.stream.trace = w.stream.trace ++ [Op.Recv, Op.Send res] := by
  have hr := Copy.BalanceLoad_recv_ok c fs w h
  refine ⟨?_, hr.1, ?_, ?_, _, Copy.BalanceLoad_trace_ok c fs w h⟩
  · intro res
    have h2 : w.stream.Recv.2.sendScript = some e :: rest := by
      rw [Stream.Recv_sendScript, hs]
    unfold Stream.Send
    rw [h2]
  · rw [hr.1]
    simp
  · rw [hr.2, Stream.Send_sendScript, Stream.Recv_sendScript, hs]
    rfl

theorem balanceLoad_send_error_discarded_witness :
    (Stream.Recv ⟨[⟨some ⟨[]⟩, none⟩], [some ⟨"transport is closing"⟩, none], []⟩).1.err = none ∧
      (∀ res : LoadBalanceResponse,
        ((Stream.Recv ⟨[⟨some ⟨[]⟩, none⟩], [some ⟨"transport is closing"⟩, none], []⟩).2.Send
          res).1 = some ⟨"transport is closing"⟩) ∧
      (Copy.BalanceLoad Copy.main_go main_go.flags
          ⟨⟨[⟨some ⟨[]⟩, none⟩], [some ⟨"transport is closing"⟩, none], []⟩, []⟩).1 = none ∧
      (Copy.BalanceLoad Copy.main_go main_go.flags
          ⟨⟨[⟨some ⟨[]⟩, none⟩], [some ⟨"transport is closing"⟩, none], []⟩, []⟩).1 ≠
        some ⟨"transport is closing"⟩ ∧
      (Copy.BalanceLoad Copy.main_go main_go.flags
          ⟨⟨[⟨some ⟨[]⟩, none⟩], [some ⟨"transport is closing"⟩, none], []⟩,
            []⟩).2.stream.sendScript = [none] ∧
      ∃ res : LoadBalanceResponse,
        (Copy.BalanceLoad Copy.main_go main_go.flags
            ⟨⟨[⟨some ⟨[]⟩, none⟩], [some ⟨"transport is closing"⟩, none], []⟩,
              []⟩).2.stream.trace = [] ++ [Op.Recv, Op.Send res] :=
  ⟨rfl,
    balanceLoad_send_error_discarded Copy.main_go main_go.flags
      ⟨⟨[⟨some ⟨[]⟩, none⟩], [some ⟨"transport is closing"⟩, none], []⟩, []⟩
      ⟨"transport is closing"⟩ [none] rfl rfl⟩

/-- Claim C7: the handler ignores the content of the request: for every copy,
under the same flags, two first requests `m1` and `m2` received with success
lead to the same returned value, the same calls on the stream with the same
response, and the same log. -/
theorem balanceLoad_ignores_request (c : Copy) (fs : FlagSet)
    (m1 m2 : Option LoadBalanceRequest) (queued : List RecvResult)
    (sends : List (Option Error)) (trace : List Op) (log : List String) :
    c.BalanceLoad fs ⟨⟨⟨m1, none⟩ :: queued, sends, trace⟩, log⟩ =
      c.BalanceLoad fs ⟨⟨⟨m2, none⟩ :: queued, sends, trace⟩, log⟩ := by
  rw [Copy.BalanceLoad_eq, Copy.BalanceLoad_eq]
  rfl

/-! ## Start-up -/

/-- Claim C8, as stated, fails for `src/main.go`: started with no flag at all,
so with no insecure or debug flag set, it builds the server with an empty option
list and not with the ALTS credentials option. -/
theorem main_go_options_empty_without_flag :
    ∃ p : Process,
      Copy.main Copy.main_go [] = some p ∧
        Copy.insecureFlag Copy.main_go = none ∧
        p.flags.getBool "insecure" = false ∧
        p.flags.getBool "debug_mode" = false ∧
        p.server.opts = [] ∧
        p.server.opts ≠ [grpc.Creds alts.NewServerCreds] :=
  ⟨⟨main_go.flags, ⟨[]⟩, ⟨"tcp", ":10000"⟩, ["begin listing on 10000\n"], []⟩,
    by decide, rfl, by decide, by decide, rfl, by decide⟩

/-- Claim C8, amended: in the two copies that define the flag (`-insecure` in
`cxx_creds_test`, `-debug_mode` in `manual_repro`) the options passed to the
server constructor are decided by that flag alone: none when it is set, the
ALTS server-credentials option alone otherwise; `src/main.go` defines no such
flag and always passes no option. -/
theorem server_options_by_flag (c : Copy) (args : List Arg) (p : Process)
    (h : c.main args = some p) :
    flag.Parse c.flags args = some p.flags ∧
      p.server.opts =
        match c.insecureFlag with
        | none => []
        | some flagValue =>
          if flagValue p.flags = true then [] else [grpc.Creds alts.NewServerCreds] := by
  cases c
  · simp only [Copy.main, main_go.main] at h
    simp only [Copy.flags, Copy.insecureFlag]
    cases hp : flag.Parse main_go.flags args with
    | none => simp [hp] at h
    | some fs =>
      simp only [hp, Option.some.injEq] at h
      subst h
      exact ⟨rfl, rfl⟩
  · simp only [Copy.main, cxx_creds_test.main] at h
    simp only [Copy.flags, Copy.insecureFlag]
    cases hp : flag.Parse cxx_creds_test.flags args with
    | none => simp [hp] at h
    | some fs =>
      simp only [hp, Option.some.injEq] at h
      subst h
      refine ⟨rfl, ?_⟩
      cases hi : cxx_creds_test.insecure fs <;> simp [hi, grpc.NewServer]
  · simp only [Copy.main, manual_repro.main] at h
    simp only [Copy.flags, Copy.insecureFlag]
    cases hp : flag.Parse manual_repro.flags args with
    | none => simp [hp] at h
    | some fs =>
      simp only [hp, Option.some.injEq] at h
      subst h
      refine ⟨rfl, ?_⟩
      cases hi : manual_repro.debugMode fs <;> simp [hi, grpc.NewServer]

theorem server_options_by_flag_witness :
    Copy.main Copy.cxx_creds_test [⟨"insecure", Value.bool true⟩] =
        some
          ⟨[flag.Int "port" 10000 "The server port",
              flag.Int "backend_port" 20000 "The backend server port",
              flag.Bool "insecure" true "insecure"],
            ⟨[]⟩, ⟨"tcp", ":10000"⟩, ["Begin listing on 10000 with ALTS credentials.\n"], []⟩ ∧
      (grpc.Server.mk []).opts =
        match Copy.insecureFlag Copy.cxx_creds_test with
        | none => []
        | some flagValue =>
          if flagValue
                [flag.Int "port" 10000 "The server port",
                  flag.Int "backend_port" 20000 "The backend server port",
                  flag.Bool "insecure" true "insecure"] = true then []
          else [grpc.Creds alts.NewServerCreds] :=
  ⟨by decide,
    (server_options_by_flag Copy.cxx_creds_test [⟨"insecure", Value.bool true⟩]
      ⟨[flag.Int "port" 10000 "The server port",
          flag.Int "backend_port" 20000 "The backend server port",
          flag.Bool "insecure" true "insecure"],
        ⟨[]⟩, ⟨"tcp", ":10000"⟩, ["Begin listing on 10000 with ALTS credentials.\n"], []⟩
      (by decide)).2⟩

/-- Claim C9: with no command-line flag given, every copy is configured with
listen port 10000 and backend port 20000, and the insecure/debug flag is false
in the two copies that define it; so the server listens on TCP address
`:10000` and the handler advertises backend port 20000. -/
theorem default_configuration (c : Copy) :
    flag.Parse c.flags [] = some c.flags ∧
      c.port c.flags = 10000 ∧
      c.backend_port c.flags = 20000 ∧
      cxx_creds_test.insecure cxx_creds_test.flags = false ∧
      manual_repro.debugMode manual_repro.flags = false ∧
      (c.main []).map (fun p => (p.flags, p.lis)) = some (c.flags, ⟨"tcp", ":10000"⟩) ∧
      ∀ (m : Option LoadBalanceRequest) (queued : List RecvResult)
        (sends : List (Option Error)) (trace : List Op) (log : List String),
        (c.BalanceLoad c.flags ⟨⟨⟨m, none⟩ :: queued, sends, trace⟩, log⟩).2.stream.trace =
          trace ++
            [Op.Recv,
              Op.Send
                ⟨LoadBalanceResponseType.LoadBalanceResponse_ServerList
                  ⟨[⟨[127, 0, 0, 1], 20000⟩]⟩⟩] := by
  refine ⟨rfl, ?_, ?_, by decide, by decide, ?_, ?_⟩
  · cases c <;> decide
  · cases c <;> decide
  · cases c <;> decide
  · intro m queued sends trace log
    have hb : int32 (c.backend_port c.flags) = 20000 := by cases c <;> decide
    have ht :=
      Copy.BalanceLoad_trace_ok c c.flags ⟨⟨⟨m, none⟩ :: queued, sends, trace⟩, log⟩ rfl
    rw [ht, hb]
    rfl

/-! ## The copies agree -/

/-- Claim C10: the three copies of the handler are behaviourally equal: under
the same flags they read the same backend port, and on every stream, whatever
`Recv` and `Send` return, they make the same calls, send the same response,
write the same log and return the same value. -/
theorem balanceLoad_copies_agree (fs : FlagSet) (w : World) :
    main_go.backend_port fs = cxx_creds_test.backend_port fs ∧
      cxx_creds_test.backend_port fs = manual_repro.backendPort fs ∧
      main_go.BalanceLoad fs w = cxx_creds_test.BalanceLoad fs w ∧
      cxx_creds_test.BalanceLoad fs w = manual_repro.BalanceLoad fs w :=
  ⟨rfl, rfl, rfl, rfl⟩

end FakeGrpclb
